import Mathlib

/-!
Verification development for the safe arithmetic-expression evaluator of
src/calculator.py (class `SafeEvaluator`, lines 8-89).

The evaluator parses a source string with the host's expression parser
(`ast.parse(expression, mode='eval')`) and then walks the resulting tree with
`SafeEvaluator._eval`, which whitelists node shapes: numeric constants, the
nine arithmetic operators, bare identifier lookups in a fixed environment, and
function calls whose callee is a bare identifier found in that environment.

Modelling choices (shallow embedding):
* Python numbers (int and float collapsed) are modelled by an abstract
  `LinearOrderedField` with a `FloorRing` structure; the evaluator is generic
  in that field.  The intended instantiation is `ℝ` (Python floats idealised
  as reals, via `realMath` below); a decidable `ℚ` instantiation (`testMath`)
  is used to evaluate the model on concrete inputs.
* The transcendental library functions (`math.sin`, `math.log10`, ...) are
  collected in a `PyMath` record; `realMath` realises them with Mathlib's
  real functions.
* Python exceptions are the `PyExc` type.  `SafeEvaluator.eval` re-raises
  `ZeroDivisionError` and converts every other exception to
  `ValueError("Invalid expression")` (lines 49-52), which the model reproduces.
* The host parser `ast.parse` is external library code; the model represents
  its outcome as an `Except PyExc (Ast α)` input to `evaluate` (`.error
  .parseFail` for a `SyntaxError`, e.g. on an empty, whitespace-only or
  multi-statement source such as "import os").
* The closures stored in the environment (`_sin`, `_cos`, `_tan` capture the
  degree flag; `math.log10`, `round`, ... are bare functions) are
  defunctionalised into the first-order type `FnV`, applied by `applyFn`.
  `isinstance` checks on Python values are modelled by the `Value` sum type;
  Python's bool-is-an-int coercion is `Value.toNum`.
-/

namespace PyCalc

deriving instance DecidableEq for Except

/-- Python exceptions that can escape the evaluator's code paths. -/
inductive PyExc where
  | valueError (msg : String)
  | typeError
  | zeroDivisionError
  | parseFail
deriving DecidableEq

/-- Binary operator tokens of `ast.BinOp`.  Only the first seven are keys of
`self.ops` (src/calculator.py lines 12-22); the remaining five exist in the
host grammar but are not whitelisted. -/
inductive BinOpK where
  | add | sub | mul | div | mod | pow | floorDiv
  | lshift | rshift | bitOr | bitXor | bitAnd | matMul
deriving DecidableEq

/-- Unary operator tokens of `ast.UnaryOp`; `usub`/`uadd` are in `self.ops`,
`boolNot` (`not`) and `bitNot` (`~`) are not. -/
inductive UnOpK where
  | usub | uadd | boolNot | bitNot
deriving DecidableEq

/-- Node kinds the host expression grammar can produce but `_eval` has no
branch for: they all fall through to `raise ValueError("Unsupported syntax")`
(line 89). -/
inductive OtherKind where
  | compare | boolOpNode | attrGet | subscr | lamNode | listLit | tupleLit
  | dictLit | setLit | comprehension | sliceNode | ifExp | namedExpr
  | joinedStr | starred
deriving DecidableEq

/-- Payload of an `ast.Constant` node.  `num` covers int and float literals;
`bool`, `str` and `noneLit` are the other constant kinds the grammar allows. -/
inductive PyConst (α : Type) where
  | num (x : α)
  | bool (b : Bool)
  | str (s : String)
  | noneLit
deriving DecidableEq

/-- The syntax tree delivered by `ast.parse(mode='eval')`, restricted to the
shapes `_eval` distinguishes.  `call` keeps the keyword arguments
(`ast.Call.keywords`) because the source node carries them even though `_eval`
never reads them.  `exprStmt` is the `ast.Expr` wrapper of line 86.  All node
kinds without a dedicated branch in `_eval` are collapsed into `other`
(children retained; `_eval` rejects such a node before looking at them). -/
inductive Ast (α : Type) where
  | const (c : PyConst α)
  | binop (op : BinOpK) (l r : Ast α)
  | unop (op : UnOpK) (e : Ast α)
  | name (nm : String)
  | call (f : Ast α) (args : List (Ast α)) (kws : List (Option String × Ast α))
  | exprStmt (e : Ast α)
  | other (k : OtherKind) (children : List (Ast α))

/-- Defunctionalised closures stored in the environment: the three trig
wrappers capture the degree flag (`is_deg`), the rest are the library
functions bound directly (src/calculator.py lines 27-39). -/
inductive FnV where
  | sinF (deg : Bool) | cosF (deg : Bool) | tanF (deg : Bool)
  | logF | lnF | sqrtF | absF | roundF
deriving DecidableEq

/-- A Python runtime value the evaluator can produce: a number (int or float),
a bool, or one of the environment's function objects. -/
inductive Value (α : Type) where
  | num (x : α)
  | bool (b : Bool)
  | func (f : FnV)
deriving DecidableEq

/-- An entry of the environment dict: a numeric constant or a function. -/
inductive EnvVal (α : Type) where
  | const (v : α)
  | fn (f : FnV)
deriving DecidableEq

/-- The transcendental host library (`math` module) the evaluator calls into,
abstracted over the number field. -/
structure PyMath (α : Type) where
  sin : α → α
  cos : α → α
  tan : α → α
  log10 : α → α
  ln : α → α
  sqrt : α → α
  powf : α → α → α
  pi : α
  e : α

variable {α : Type} [LinearOrderedField α] [FloorRing α] [DecidableEq α]

/-- Python's numeric coercion: ints and floats are numbers, `bool` is an int
subclass (`True == 1`, `False == 0`), functions do not coerce (a `TypeError`). -/
def Value.toNum : Value α → Option α
  | .num x => some x
  | .bool b => some (if b then 1 else 0)
  | .func _ => none

@[simp] theorem Value.toNum_num (x : α) : (Value.num x).toNum = some x := rfl

@[simp] theorem Value.toNum_bool (b : Bool) :
    (Value.bool b : Value α).toNum = some (if b then 1 else 0) := rfl

@[simp] theorem Value.toNum_func (f : FnV) :
    (Value.func f : Value α).toNum = none := rfl

/-- Python truthiness, as used by `if is_deg:` in the trig wrappers: a number
is truthy iff nonzero, a bool is itself, a function object is truthy. -/
def Value.truthy : Value α → Bool
  | .num x => if x = 0 then false else true
  | .bool b => b
  | .func _ => true

/-- Models `math.radians`: degrees to radians conversion. -/
def radians (B : PyMath α) (x : α) : α := x * B.pi / 180

/-- Models Python's builtin `round` on a number with no second argument:
round-half-to-even to an integer. -/
def rndHE (x : α) : α :=
  if x - (⌊x⌋ : α) < 1 / 2 then (⌊x⌋ : α)
  else if 1 / 2 < x - (⌊x⌋ : α) then (⌊x⌋ : α) + 1
  else if ⌊x⌋ % 2 = 0 then (⌊x⌋ : α) else (⌊x⌋ : α) + 1

/-- Models `round(x, d)` with `d` digits: round-half-to-even at the `d`-th
decimal place. -/
def rndHEDigits (x : α) (d : ℤ) : α :=
  rndHE (x * (10 : α) ^ d) / (10 : α) ^ d

/-- Models the dictionary lookup `node.id in env` / `env[node.id]` on the
environment dict (whose keys are distinct strings). -/
def lookupEnv : List (String × EnvVal α) → String → Option (EnvVal α)
  | [], _ => none
  | (k, v) :: rest, nm => if k = nm then some v else lookupEnv rest nm

/-- Models the `self.ops` dictionary (src/calculator.py lines 12-22),
restricted to binary operators: `None` for an operator token that is not a
key.  The returned function is the `operator`-module function applied to two
already-coerced numbers; `/`, `%` and `//` raise `ZeroDivisionError` on a zero
divisor, and `%` / `//` use Python's floored-division semantics. -/
def binFn (B : PyMath α) : BinOpK → Option (α → α → Except PyExc α)
  | .add => some fun a b => .ok (a + b)
  | .sub => some fun a b => .ok (a - b)
  | .mul => some fun a b => .ok (a * b)
  | .div => some fun a b =>
      if b = 0 then .error .zeroDivisionError else .ok (a / b)
  | .mod => some fun a b =>
      if b = 0 then .error .zeroDivisionError
      else .ok (a - b * ((⌊a / b⌋ : ℤ) : α))
  | .pow => some fun a b => .ok (B.powf a b)
  | .floorDiv => some fun a b =>
      if b = 0 then .error .zeroDivisionError else .ok ((⌊a / b⌋ : ℤ) : α)
  | _ => none

/-- Models the unary-operator part of `self.ops`: `op.neg` for `USub`,
`op.pos` for `UAdd`; `not` and `~` are not keys. -/
def unFn : UnOpK → Option (α → α)
  | .usub => some fun a => -a
  | .uadd => some fun a => a
  | _ => none

/-- Applies an environment function to the list of positional argument values,
exactly as `fn(*args)` does (src/calculator.py line 84).  A wrong argument
count or a non-number argument raises `TypeError`; the `math` functions raise
`ValueError` outside their domain, and two-argument `math.log` raises
`ZeroDivisionError` for base 1.  The trig wrappers `_sin`, `_cos`, `_tan`
take the captured `is_deg` as a defaulted second parameter, so a second
positional argument overrides the captured flag (lines 27-29). -/
def applyFn (B : PyMath α) : FnV → List (Value α) → Except PyExc α
  | .sinF deg, [v] =>
      match v.toNum with
      | some x => .ok (if deg then B.sin (radians B x) else B.sin x)
      | none => .error .typeError
  | .sinF _, [v, d] =>
      match v.toNum with
      | some x => .ok (if d.truthy then B.sin (radians B x) else B.sin x)
      | none => .error .typeError
  | .cosF deg, [v] =>
      match v.toNum with
      | some x => .ok (if deg then B.cos (radians B x) else B.cos x)
      | none => .error .typeError
  | .cosF _, [v, d] =>
      match v.toNum with
      | some x => .ok (if d.truthy then B.cos (radians B x) else B.cos x)
      | none => .error .typeError
  | .tanF deg, [v] =>
      match v.toNum with
      | some x => .ok (if deg then B.tan (radians B x) else B.tan x)
      | none => .error .typeError
  | .tanF _, [v, d] =>
      match v.toNum with
      | some x => .ok (if d.truthy then B.tan (radians B x) else B.tan x)
      | none => .error .typeError
  | .logF, [v] =>
      match v.toNum with
      | some x => if x ≤ 0 then .error (.valueError "math domain error")
                  else .ok (B.log10 x)
      | none => .error .typeError
  | .lnF, [v] =>
      match v.toNum with
      | some x => if x ≤ 0 then .error (.valueError "math domain error")
                  else .ok (B.ln x)
      | none => .error .typeError
  | .lnF, [v, b] =>
      match v.toNum, b.toNum with
      | some x, some bb =>
          if x ≤ 0 ∨ bb ≤ 0 then .error (.valueError "math domain error")
          else if B.ln bb = 0 then .error .zeroDivisionError
          else .ok (B.ln x / B.ln bb)
      | _, _ => .error .typeError
  | .sqrtF, [v] =>
      match v.toNum with
      | some x => if x < 0 then .error (.valueError "math domain error")
                  else .ok (B.sqrt x)
      | none => .error .typeError
  | .absF, [v] =>
      match v.toNum with
      | some x => .ok |x|
      | none => .error .typeError
  | .roundF, [v] =>
      match v.toNum with
      | some x => .ok (rndHE x)
      | none => .error .typeError
  | .roundF, [v, d] =>
      match v.toNum, d.toNum with
      | some x, some dv =>
          if ((⌊dv⌋ : ℤ) : α) = dv then .ok (rndHEDigits x ⌊dv⌋)
          else .error .typeError
      | _, _ => .error .typeError
  | _, _ => .error .typeError

/-- Models `SafeEvaluator._build_env` (src/calculator.py lines 24-43): the
environment dict, in source order, built from the current degree flag. -/
def buildEnv (B : PyMath α) (deg : Bool) : List (String × EnvVal α) :=
  [ ("sin", .fn (.sinF deg))
  , ("cos", .fn (.cosF deg))
  , ("tan", .fn (.tanF deg))
  , ("log", .fn .logF)
  , ("ln", .fn .lnF)
  , ("sqrt", .fn .sqrtF)
  , ("abs", .fn .absF)
  , ("round", .fn .roundF)
  , ("pi", .const B.pi)
  , ("e", .const B.e)
  ]

mutual

/-- Models `SafeEvaluator._eval` (src/calculator.py lines 54-89): the
recursive whitelist walk.  Branch order and check order follow the source:
numeric constants are returned, bool constants pass the
`isinstance(node.value, (int, float))` test because Python's `bool` is an
`int` subclass, other constants raise; `BinOp`/`UnaryOp` check the operator
against `self.ops` before evaluating operands left to right; `Name` is an
environment lookup; `Call` requires the callee to be a `Name` that is an
environment key, evaluates the positional arguments left to right (ignoring
`node.keywords`), rejects an empty argument list, then applies the entry;
`Expr` unwraps; everything else is "Unsupported syntax". -/
def evalNode (B : PyMath α) (env : List (String × EnvVal α)) :
    Ast α → Except PyExc (Value α)
  | .const c =>
      match c with
      | .num x => .ok (.num x)
      | .bool b => .ok (.bool b)
      | _ => .error (.valueError "Constants other than numbers not allowed")
  | .binop op l r =>
      match binFn B op with
      | none => .error (.valueError "Operator not allowed")
      | some f =>
          match evalNode B env l with
          | .error e => .error e
          | .ok va =>
              match evalNode B env r with
              | .error e => .error e
              | .ok vb =>
                  match va.toNum, vb.toNum with
                  | some a, some b =>
                      match f a b with
                      | .ok x => .ok (.num x)
                      | .error e => .error e
                  | _, _ => .error .typeError
  | .unop op e =>
      match unFn (α := α) op with
      | none => .error (.valueError "Unary operator not allowed")
      | some f =>
          match evalNode B env e with
          | .error e' => .error e'
          | .ok v =>
              match v.toNum with
              | some a => .ok (.num (f a))
              | none => .error .typeError
  | .name nm =>
      match lookupEnv env nm with
      | some (.const v) => .ok (.num v)
      | some (.fn f) => .ok (.func f)
      | none => .error (.valueError ("Unknown name: " ++ nm))
  | .call f args _kws =>
      match f with
      | .name nm =>
          match lookupEnv env nm with
          | none => .error (.valueError "Function not allowed")
          | some ev =>
              match evalArgs B env args with
              | .error e => .error e
              | .ok vs =>
                  if vs.length = 0 then
                    .error (.valueError "Function needs arguments")
                  else
                    match ev with
                    | .const _ => .error .typeError
                    | .fn g =>
                        match applyFn B g vs with
                        | .ok x => .ok (.num x)
                        | .error e => .error e
      | _ => .error (.valueError "Function not allowed")
  | .exprStmt e => evalNode B env e
  | .other _ _ => .error (.valueError "Unsupported syntax")

/-- Models the list comprehension `[self._eval(a, env) for a in node.args]`
(src/calculator.py line 81): arguments evaluated left to right, the first
exception propagating. -/
def evalArgs (B : PyMath α) (env : List (String × EnvVal α)) :
    List (Ast α) → Except PyExc (List (Value α))
  | [] => .ok []
  | a :: rest =>
      match evalNode B env a with
      | .error e => .error e
      | .ok v =>
          match evalArgs B env rest with
          | .error e => .error e
          | .ok vs => .ok (v :: vs)

end

/-- Models `SafeEvaluator.eval` (src/calculator.py lines 45-52): parse, build
the environment, walk the tree; re-raise `ZeroDivisionError`, convert every
other exception (including the parser's `SyntaxError`) into
`ValueError("Invalid expression")`. -/
def evaluate (B : PyMath α) (deg : Bool) (parsed : Except PyExc (Ast α)) :
    Except PyExc (Value α) :=
  match (match parsed with
         | .error e => .error e
         | .ok t => evalNode B (buildEnv B deg) t : Except PyExc (Value α)) with
  | .ok v => .ok v
  | .error .zeroDivisionError => .error .zeroDivisionError
  | .error _ => .error (.valueError "Invalid expression")

/-! ### Auxiliary predicates used by the statements -/

/-- True of an `Except` that carries an error. -/
def fails {ε β : Type} : Except ε β → Bool
  | .error _ => true
  | .ok _ => false

/-- A binary operator token outside the whitelist of `self.ops`. -/
def BinOpK.isBadTok : BinOpK → Bool
  | .lshift | .rshift | .bitOr | .bitXor | .bitAnd | .matMul => true
  | _ => false

/-- A unary operator token outside the whitelist of `self.ops`. -/
def UnOpK.isBadTok : UnOpK → Bool
  | .boolNot | .bitNot => true
  | _ => false

mutual

/-- Detects a tree that contains, outside the keyword arguments of any call
node, a syntactic construct that the whitelist of §4.1 excludes: a non-handled
node kind, a string or `None` constant, or an operator token missing from
`self.ops`.  (Boolean constants are not counted: the constant check of line 58
accepts them, since Python's `bool` subclasses `int`.) -/
def hasBadOutsideKw : Ast α → Bool
  | .const c =>
      match c with
      | .num _ => false
      | .bool _ => false
      | _ => true
  | .binop op l r => op.isBadTok || hasBadOutsideKw l || hasBadOutsideKw r
  | .unop op e => op.isBadTok || hasBadOutsideKw e
  | .name _ => false
  | .call f args _kws => hasBadOutsideKw f || hasBadOutsideKwL args
  | .exprStmt e => hasBadOutsideKw e
  | .other _ _ => true

/-- List version of `hasBadOutsideKw`, for call arguments. -/
def hasBadOutsideKwL : List (Ast α) → Bool
  | [] => false
  | a :: rest => hasBadOutsideKw a || hasBadOutsideKwL rest

end

/-- A bad binary operator token is not a key of `self.ops`. -/
theorem binFn_eq_none_of_isBadTok (B : PyMath α) (op : BinOpK)
    (h : op.isBadTok = true) : binFn B op = none := by
  cases op <;> simp_all [BinOpK.isBadTok, binFn]

/-- A bad unary operator token is not a key of `self.ops`. -/
theorem unFn_eq_none_of_isBadTok (op : UnOpK)
    (h : op.isBadTok = true) : unFn (α := α) op = none := by
  cases op <;> simp_all [UnOpK.isBadTok, unFn]

/-- True of a tree whose evaluated node (after unwrapping `ast.Expr`) is a
boolean literal. -/
def isBoolLit : Ast α → Bool
  | .const (.bool _) => true
  | .exprStmt e => isBoolLit e
  | _ => false

/-- True of a tree whose evaluated node (after unwrapping `ast.Expr`) is a
bare identifier bound to a function entry of the environment. -/
def isFnIdent (env : List (String × EnvVal α)) : Ast α → Bool
  | .name nm =>
      match lookupEnv env nm with
      | some (.fn _) => true
      | _ => false
  | .exprStmt e => isFnIdent env e
  | _ => false

/-- A tower of `n` unary-plus nodes over the literal 1: the parse tree of
`"+" * n ++ "1"`, used to probe for a depth ceiling. -/
def nestPos : Nat → Ast α
  | 0 => .const (.num 1)
  | n + 1 => .unop .uadd (nestPos n)

/-! ### Backends -/

/-- A decidable rational-valued stand-in for the `math` module, used to run
the model on concrete inputs where the transcendental values are irrelevant. -/
def testMath : PyMath ℚ :=
  { sin := fun x => x
  , cos := fun x => x
  , tan := fun x => x
  , log10 := fun x => x
  , ln := fun x => x
  , sqrt := fun x => x
  , powf := fun a b => a * b
  , pi := 3
  , e := 2
  }

/-- The real-valued `math` module: Python float functions idealised as the
corresponding real functions. -/
noncomputable def realMath : PyMath ℝ :=
  { sin := Real.sin
  , cos := Real.cos
  , tan := Real.tan
  , log10 := fun x => Real.logb 10 x
  , ln := Real.log
  , sqrt := Real.sqrt
  , powf := fun a b => Real.rpow a b
  , pi := Real.pi
  , e := Real.exp 1
  }

/-! ### Claims -/

/-- C10: a function call's keyword arguments are silently ignored by
`_eval`: the result of a call node does not depend on its keyword list at all
(so keywords are never validated against the whitelist, never evaluated, and
never passed to the function), and equals the result of the same call with the
keywords dropped — both inside `_eval` and at the top-level `eval`. -/
theorem C10_keywords_ignored (B : PyMath α) (env : List (String × EnvVal α))
    (deg : Bool) (f : Ast α) (args : List (Ast α))
    (kws kws' : List (Option String × Ast α)) :
    evalNode B env (.call f args kws) = evalNode B env (.call f args kws')
    ∧ evaluate B deg (.ok (.call f args kws))
        = evaluate B deg (.ok (.call f args [])) := by
  constructor
  · simp only [evalNode]
  · simp only [evaluate, evalNode]

/-- C8: an input on which the host parser fails — which includes an empty or
whitespace-only source exactly as it includes any malformed source — is
normalized by `eval`'s exception handler into the single generic
`ValueError("Invalid expression")`, the same kind for all such inputs. -/
theorem C8_blank_like_malformed (B : PyMath α) (deg : Bool) :
    evaluate B deg (.error .parseFail) = .error (.valueError "Invalid expression") := rfl

/-- C4: applying `/`, `%` or `//` to a numeric left operand and a zero
divisor raises the dedicated `ZeroDivisionError` — identically for all three
operators — and `eval` re-raises that kind unchanged, keeping it distinct
from the generic invalid-expression failure. -/
theorem C4_division_by_zero (B : PyMath α) (deg : Bool) (op : BinOpK)
    (hop : op = .div ∨ op = .mod ∨ op = .floorDiv)
    (l r : Ast α) (a : α) (vb : Value α)
    (hl : evalNode B (buildEnv B deg) l = .ok (.num a))
    (hr : evalNode B (buildEnv B deg) r = .ok vb)
    (hb : vb.toNum = some 0) :
    evalNode B (buildEnv B deg) (.binop op l r) = .error .zeroDivisionError
    ∧ (∀ t : Ast α, evalNode B (buildEnv B deg) t = .error .zeroDivisionError →
        evaluate B deg (.ok t) = .error .zeroDivisionError)
    ∧ (∀ msg, PyExc.zeroDivisionError ≠ PyExc.valueError msg) := by
  refine ⟨?_, ?_, ?_⟩
  · rcases hop with h | h | h <;> subst h <;>
      simp [evalNode, binFn, hl, hr, hb]
  · intro t ht; simp [evaluate, ht]
  · intro msg h; exact PyExc.noConfusion h

/-- C4 witness: the parse tree of "1/0" evaluates to `ZeroDivisionError` both
in `_eval` and at the top level, and that kind differs from the generic one. -/
theorem C4_witness :
    evalNode testMath (buildEnv testMath true)
        (.binop .div (.const (.num 1)) (.const (.num 0))) = .error .zeroDivisionError
    ∧ (∀ t : Ast ℚ, evalNode testMath (buildEnv testMath true) t = .error .zeroDivisionError →
        evaluate testMath true (.ok t) = .error .zeroDivisionError)
    ∧ (∀ msg, PyExc.zeroDivisionError ≠ PyExc.valueError msg) :=
  C4_division_by_zero testMath true .div (Or.inl rfl)
    (.const (.num 1)) (.const (.num 0)) 1 (.num 0)
    (by decide) (by decide) (by decide)

/-- C3 counterexample: evaluating the parse tree of "foo(1)" at the top level
yields exactly the generic `ValueError("Invalid expression")` — not an
unknown-name or disallowed-call error distinguishable from the generic
bucket, contrary to the claim. -/
theorem C3_counterexample :
    evaluate testMath true (.ok (.call (.name "foo") [.const (.num 1)] []))
      = .error (.valueError "Invalid expression") := by decide

/-- C3 amended: the top-level `eval` distinguishes exactly two error kinds:
`ZeroDivisionError` is re-raised, and every other internal failure is
collapsed into the single generic `ValueError("Invalid expression")`.  The
finer kinds of the taxonomy exist only as messages inside `_eval` (e.g.
"Function not allowed" for the call "foo(1)") and are not observable from
`eval`. -/
theorem C3_amended (B : PyMath α) (deg : Bool) :
    (∀ (parsed : Except PyExc (Ast α)) (e : PyExc),
        evaluate B deg parsed = .error e →
        e = .zeroDivisionError ∨ e = .valueError "Invalid expression")
    ∧ evalNode B (buildEnv B deg) (.call (.name "foo") [.const (.num 1)] [])
        = .error (.valueError "Function not allowed") := by
  constructor
  · intro parsed e h
    unfold evaluate at h
    split at h
    · exact absurd h (by simp)
    · left; exact (Except.error.injEq _ _).mp h.symm
    · right; exact (Except.error.injEq _ _).mp h.symm
  · simp [evalNode, buildEnv, lookupEnv, evalArgs, Value.toNum]

/-- C3 witness: the normalization component of the amended claim applied to a
concrete failing input. -/
theorem C3_witness :
    (PyExc.valueError "Invalid expression") = PyExc.zeroDivisionError
    ∨ (PyExc.valueError "Invalid expression") = PyExc.valueError "Invalid expression" :=
  (C3_amended testMath true).1 (.ok (.name "foo")) _ (by decide)

/-- C5 counterexample: the call "pi(1)" — whose callee is a bare identifier
naming a constant of the environment, not a function — does not fail with
"Function not allowed": the membership check `node.func.id not in env`
passes, and applying the non-callable float raises a host `TypeError`,
surfaced at the top level as the generic invalid-expression failure. -/
theorem C5_counterexample :
    evalNode testMath (buildEnv testMath true)
        (.call (.name "pi") [.const (.num 1)] []) = .error .typeError
    ∧ evaluate testMath true (.ok (.call (.name "pi") [.const (.num 1)] []))
        = .error (.valueError "Invalid expression") := ⟨by decide, by decide⟩

/-- C5 amended: for a call node, `_eval` fails with "Function not allowed"
exactly when the callee is not a bare identifier or is an identifier that is
not an environment key (constants such as `pi` and `e` pass this check);
argument expressions are evaluated left to right; a call that reaches the
arity check with zero evaluated arguments fails with "Function needs
arguments"; a callee bound to a constant then fails with a host `TypeError`;
and a callee bound to a function is applied positionally to the evaluated
arguments. -/
theorem C5_amended (B : PyMath α) (deg : Bool) :
    (∀ (f : Ast α) args kws, (∀ nm, f ≠ .name nm) →
        evalNode B (buildEnv B deg) (.call f args kws)
          = .error (.valueError "Function not allowed"))
    ∧ (∀ nm args kws, lookupEnv (buildEnv B deg) nm = none →
        evalNode B (buildEnv B deg) (.call (.name nm) args kws)
          = .error (.valueError "Function not allowed"))
    ∧ (∀ nm ev args kws, lookupEnv (buildEnv B deg) nm = some ev →
        evalArgs B (buildEnv B deg) args = .ok [] →
        evalNode B (buildEnv B deg) (.call (.name nm) args kws)
          = .error (.valueError "Function needs arguments"))
    ∧ (∀ nm c args kws vs, lookupEnv (buildEnv B deg) nm = some (.const c) →
        evalArgs B (buildEnv B deg) args = .ok vs → vs ≠ [] →
        evalNode B (buildEnv B deg) (.call (.name nm) args kws) = .error .typeError)
    ∧ (∀ nm g args kws vs, lookupEnv (buildEnv B deg) nm = some (.fn g) →
        evalArgs B (buildEnv B deg) args = .ok vs → vs ≠ [] →
        evalNode B (buildEnv B deg) (.call (.name nm) args kws)
          = (match applyFn B g vs with
             | .ok x => .ok (.num x)
             | .error e => .error e))
    ∧ (∀ (a : Ast α) rest, evalArgs B (buildEnv B deg) (a :: rest)
          = (match evalNode B (buildEnv B deg) a with
             | .error e => .error e
             | .ok v =>
                 match evalArgs B (buildEnv B deg) rest with
                 | .error e => .error e
                 | .ok vs => .ok (v :: vs))) := by
  refine ⟨?_, ?_, ?_, ?_, ?_, ?_⟩
  · intro f args kws hf
    cases f with
    | name nm => exact absurd rfl (hf nm)
    | _ => simp [evalNode]
  · intro nm args kws h; simp [evalNode, h]
  · intro nm ev args kws h hargs; simp [evalNode, h, hargs]
  · intro nm c args kws vs h hargs hne
    simp [evalNode, h, hargs, List.length_eq_zero, hne]
  · intro nm g args kws vs h hargs hne
    simp [evalNode, h, hargs, List.length_eq_zero, hne]
  · intro a rest; simp only [evalArgs]

/-- C5 witness: the constant-callee component of the amended claim applied to
the concrete call "e(2)". -/
theorem C5_witness :
    evalNode testMath (buildEnv testMath true)
        (.call (.name "e") [.const (.num 2)] []) = .error .typeError :=
  (C5_amended testMath true).2.2.2.1 "e" 2 [.const (.num 2)] []
    [.num 2] (by decide) (by decide) (by decide)

/-- C6: the environment built per call binds exactly the identifiers `sin`,
`cos`, `tan`, `log`, `ln`, `sqrt`, `abs`, `round`, `pi`, `e` (in source
order); `pi` and `e` are the constants π and Euler's number; `log` is the
base-10 logarithm and `ln` the natural logarithm on their domains; `sqrt` and
`abs` are the usual functions; `round` is round-half-to-even (ties go to the
even integer), optionally at a digit position given by an integral second
argument; and evaluating a bare identifier outside this set fails with an
"Unknown name" error. -/
theorem C6_environment (deg : Bool) :
    ((buildEnv realMath deg).map Prod.fst
        = ["sin", "cos", "tan", "log", "ln", "sqrt", "abs", "round", "pi", "e"])
    ∧ lookupEnv (buildEnv realMath deg) "pi" = some (.const Real.pi)
    ∧ lookupEnv (buildEnv realMath deg) "e" = some (.const (Real.exp 1))
    ∧ (∀ x : ℝ, 0 < x → applyFn realMath .logF [.num x] = .ok (Real.logb 10 x))
    ∧ (∀ x : ℝ, 0 < x → applyFn realMath .lnF [.num x] = .ok (Real.log x))
    ∧ (∀ x : ℝ, 0 ≤ x → applyFn realMath .sqrtF [.num x] = .ok (Real.sqrt x))
    ∧ (∀ x : ℝ, applyFn realMath .absF [.num x] = .ok |x|)
    ∧ (∀ x : ℝ, applyFn realMath .roundF [.num x] = .ok (rndHE x))
    ∧ (∀ (x : ℝ) (d : ℤ),
        applyFn realMath .roundF [.num x, .num (d : ℝ)] = .ok (rndHEDigits x d))
    ∧ (∀ n : ℤ, rndHE ((n : ℝ) + 1 / 2) = if n % 2 = 0 then (n : ℝ) else (n : ℝ) + 1)
    ∧ (∀ nm, nm ∉ ["sin", "cos", "tan", "log", "ln", "sqrt", "abs", "round", "pi", "e"] →
        evalNode realMath (buildEnv realMath deg) (.name nm)
          = .error (.valueError ("Unknown name: " ++ nm))) := by
  refine ⟨rfl, rfl, rfl, ?_, ?_, ?_, ?_, ?_, ?_, ?_, ?_⟩
  · intro x hx
    simp only [applyFn, Value.toNum_num]
    rw [if_neg (not_le.mpr hx)]
    rfl
  · intro x hx
    simp only [applyFn, Value.toNum_num]
    rw [if_neg (not_le.mpr hx)]
    rfl
  · intro x hx
    simp only [applyFn, Value.toNum_num]
    rw [if_neg (not_lt.mpr hx)]
    rfl
  · intro x
    simp [applyFn]
  · intro x
    simp [applyFn]
  · intro x d
    simp [applyFn, Int.floor_intCast]
  · intro n
    have hfl : (⌊(n : ℝ) + 1 / 2⌋ : ℤ) = n := by
      rw [Int.floor_int_add]
      norm_num
    have harg : ((n : ℝ) + 1 / 2) - (n : ℝ) = 1 / 2 := by ring
    simp only [rndHE, hfl, harg]
    norm_num
  · intro nm h
    simp only [List.mem_cons, List.not_mem_nil, or_false, not_or] at h
    obtain ⟨h1, h2, h3, h4, h5, h6, h7, h8, h9, h10⟩ := h
    simp [evalNode, buildEnv, lookupEnv, Ne.symm h1, Ne.symm h2, Ne.symm h3,
      Ne.symm h4, Ne.symm h5, Ne.symm h6, Ne.symm h7, Ne.symm h8, Ne.symm h9,
      Ne.symm h10]

/-- C6 witness: evaluating the unknown bare identifier "foo" fails with the
"Unknown name" error. -/
theorem C6_witness :
    evalNode realMath (buildEnv realMath true) (.name "foo")
      = .error (.valueError ("Unknown name: " ++ "foo")) :=
  (C6_environment true).2.2.2.2.2.2.2.2.2.2 "foo" (by decide)

set_option maxHeartbeats 1000000 in
/-- Numeric estimate used by C7: the radian-mode value `sin 90` (argument in
radians) lies within 1/1000 of 0.8939966636. -/
theorem sin_ninety_estimate : |Real.sin 90 - 0.8939966636| < 1 / 1000 := by
  have hπl : (3.141592 : ℝ) < Real.pi := Real.pi_gt_d6
  have hπu : Real.pi < (3.141593 : ℝ) := Real.pi_lt_d6
  have hper : Real.sin 90 = Real.sin (90 - 28 * Real.pi) := by
    have h := Real.sin_add_nat_mul_two_pi (90 - 28 * Real.pi) 14
    have harg : 90 - 28 * Real.pi + (14 : ℕ) * (2 * Real.pi) = (90 : ℝ) := by
      push_cast
      ring
    rw [harg] at h
    exact h
  have hcosy : Real.sin (90 - 28 * Real.pi) = Real.cos (90 - 28.5 * Real.pi) := by
    rw [← Real.cos_pi_div_two_sub (90 - 28 * Real.pi)]
    have harg : Real.pi / 2 - (90 - 28 * Real.pi) = -(90 - 28.5 * Real.pi) := by
      ring
    rw [harg, Real.cos_neg]
  set y : ℝ := 90 - 28.5 * Real.pi with hy
  have hy1 : (0.46459 : ℝ) < y := by rw [hy]; linarith
  have hy2 : y < (0.46463 : ℝ) := by rw [hy]; linarith
  have hv1 : (0.116149 : ℝ) < y / 4 := by linarith
  have hv2 : y / 4 < (0.116158 : ℝ) := by linarith
  have hvpos : (0 : ℝ) < y / 4 := by linarith
  have habs : |y / 4| ≤ 1 := by
    rw [abs_of_pos hvpos]; linarith
  have hcb := Real.cos_bound habs
  rw [abs_of_pos hvpos] at hcb
  obtain ⟨hcb1, hcb2⟩ := abs_le.mp hcb
  have hsq1 : (0.116149 : ℝ) ^ 2 < (y / 4) ^ 2 :=
    pow_lt_pow_left hv1 (by norm_num) two_ne_zero
  have hsq2 : (y / 4) ^ 2 < (0.116158 : ℝ) ^ 2 :=
    pow_lt_pow_left hv2 (le_of_lt hvpos) two_ne_zero
  have hsq4 : (y / 4) ^ 4 < (0.116158 : ℝ) ^ 4 :=
    pow_lt_pow_left hv2 (le_of_lt hvpos) four_ne_zero
  set c := Real.cos (y / 4) with hc
  have hc1 : (0.9932441 : ℝ) < c := by linarith [hcb1, hsq2, hsq4]
  have hc2 : c < (0.9932643 : ℝ) := by linarith [hcb2, hsq1, hsq4]
  have hcpos : (0 : ℝ) ≤ c := by linarith
  have hd : Real.cos (y / 2) = 2 * c ^ 2 - 1 := by
    rw [show y / 2 = 2 * (y / 4) by ring, Real.cos_two_mul, ← hc]
  have hcsq1 : (0.9932441 : ℝ) ^ 2 < c ^ 2 :=
    pow_lt_pow_left hc1 (by norm_num) two_ne_zero
  have hcsq2 : c ^ 2 < (0.9932643 : ℝ) ^ 2 :=
    pow_lt_pow_left hc2 hcpos two_ne_zero
  set d := Real.cos (y / 2) with hdd
  have hd1 : (0.973067 : ℝ) < d := by rw [hd]; linarith [hcsq1]
  have hd2 : d < (0.973148 : ℝ) := by rw [hd]; linarith [hcsq2]
  have hdpos : (0 : ℝ) ≤ d := by linarith
  have he : Real.cos y = 2 * d ^ 2 - 1 := by
    rw [show y = 2 * (y / 2) by ring, Real.cos_two_mul, ← hdd]
  have hdsq1 : (0.973067 : ℝ) ^ 2 < d ^ 2 :=
    pow_lt_pow_left hd1 (by norm_num) two_ne_zero
  have hdsq2 : d ^ 2 < (0.973148 : ℝ) ^ 2 :=
    pow_lt_pow_left hd2 hdpos two_ne_zero
  have hcy1 : (0.893718 : ℝ) < Real.cos y := by rw [he]; linarith [hdsq1]
  have hcy2 : Real.cos y < (0.894035 : ℝ) := by rw [he]; linarith [hdsq2]
  rw [hper, hcosy, abs_lt]
  constructor <;> linarith

/-- C7: the trig wrappers convert their argument from degrees to radians
(via multiplication by π/180) exactly when the captured degree flag is true;
consequently "sin(90)" evaluates to exactly 1 in degree mode, and to the
radian value `sin 90` ≈ 0.8939966636 (within 1/1000) in radian mode. -/
theorem C7_trig_modes :
    (∀ (deg : Bool) (x : ℝ), applyFn realMath (.sinF deg) [.num x]
        = .ok (if deg then Real.sin (radians realMath x) else Real.sin x))
    ∧ (∀ (deg : Bool) (x : ℝ), applyFn realMath (.cosF deg) [.num x]
        = .ok (if deg then Real.cos (radians realMath x) else Real.cos x))
    ∧ (∀ (deg : Bool) (x : ℝ), applyFn realMath (.tanF deg) [.num x]
        = .ok (if deg then Real.tan (radians realMath x) else Real.tan x))
    ∧ (∀ x : ℝ, radians realMath x = x * Real.pi / 180)
    ∧ evaluate realMath true (.ok (.call (.name "sin") [.const (.num 90)] []))
        = .ok (.num 1)
    ∧ evaluate realMath false (.ok (.call (.name "sin") [.const (.num 90)] []))
        = .ok (.num (Real.sin 90))
    ∧ |Real.sin 90 - 0.8939966636| < 1 / 1000 := by
  refine ⟨fun deg x => rfl, fun deg x => rfl, fun deg x => rfl, fun x => rfl,
    ?_, ?_, sin_ninety_estimate⟩
  · have h90 : radians realMath (90 : ℝ) = Real.pi / 2 := by
      show (90 : ℝ) * Real.pi / 180 = Real.pi / 2
      ring
    calc evaluate realMath true (.ok (.call (.name "sin") [.const (.num 90)] []))
        = .ok (.num (Real.sin (radians realMath 90))) := rfl
      _ = .ok (.num 1) := by rw [h90, Real.sin_pi_div_two]
  · rfl

/-- Strong induction on tree size: a tree carrying a non-whitelisted
construct outside keyword arguments always evaluates to an error, and so
does an argument list containing one. -/
theorem badOutsideKw_fails_aux (B : PyMath α) (env : List (String × EnvVal α)) :
    ∀ n : ℕ,
      (∀ t : Ast α, sizeOf t ≤ n → hasBadOutsideKw t = true →
        fails (evalNode B env t) = true)
      ∧ (∀ l : List (Ast α), sizeOf l ≤ n → hasBadOutsideKwL l = true →
        fails (evalArgs B env l) = true) := by
  intro n
  induction n with
  | zero =>
      refine ⟨fun t ht _ => absurd ht ?_, fun l hl _ => absurd hl ?_⟩
      · cases t <;> simp_arith
      · cases l <;> simp_arith
  | succ m ih =>
      obtain ⟨ihT, ihL⟩ := ih
      constructor
      · intro t ht hbad
        cases t with
        | const c =>
            cases c with
            | num x => simp [hasBadOutsideKw] at hbad
            | bool b => simp [hasBadOutsideKw] at hbad
            | str s => simp [evalNode, fails]
            | noneLit => simp [evalNode, fails]
        | binop op l r =>
            simp only [hasBadOutsideKw, Bool.or_eq_true] at hbad
            cases hbf : binFn B op with
            | none => simp [evalNode, hbf, fails]
            | some f =>
                rcases hbad with (hb | hb) | hb
                · exact absurd (binFn_eq_none_of_isBadTok B op hb) (by simp [hbf])
                · cases hEl : evalNode B env l with
                  | error e => simp [evalNode, hbf, hEl, fails]
                  | ok va =>
                      have hfl := ihT l (by simp at ht; omega) hb
                      rw [hEl] at hfl
                      simp [fails] at hfl
                · cases hEl : evalNode B env l with
                  | error e => simp [evalNode, hbf, hEl, fails]
                  | ok va =>
                      cases hEr : evalNode B env r with
                      | error e => simp [evalNode, hbf, hEl, hEr, fails]
                      | ok vb =>
                          have hfr := ihT r (by simp at ht; omega) hb
                          rw [hEr] at hfr
                          simp [fails] at hfr
        | unop op e =>
            simp only [hasBadOutsideKw, Bool.or_eq_true] at hbad
            cases huf : unFn (α := α) op with
            | none => simp [evalNode, huf, fails]
            | some f =>
                rcases hbad with hb | hb
                · exact absurd huf (by simp [unFn_eq_none_of_isBadTok op hb])
                · cases hEe : evalNode B env e with
                  | error e2 => simp [evalNode, huf, hEe, fails]
                  | ok v =>
                      have hfe := ihT e (by simp at ht; omega) hb
                      rw [hEe] at hfe
                      simp [fails] at hfe
        | name nm => simp [hasBadOutsideKw] at hbad
        | call f args kws =>
            simp only [hasBadOutsideKw, Bool.or_eq_true] at hbad
            cases f with
            | name nm =>
                rcases hbad with hb | hb
                · simp [hasBadOutsideKw] at hb
                · cases hlk : lookupEnv env nm with
                  | none => simp [evalNode, hlk, fails]
                  | some ev =>
                      cases hEa : evalArgs B env args with
                      | error e => simp [evalNode, hlk, hEa, fails]
                      | ok vs =>
                          have hfa := ihL args (by simp at ht; omega) hb
                          rw [hEa] at hfa
                          simp [fails] at hfa
            | const c => simp [evalNode, fails]
            | binop op2 l2 r2 => simp [evalNode, fails]
            | unop op2 e2 => simp [evalNode, fails]
            | call f2 a2 k2 => simp [evalNode, fails]
            | exprStmt e2 => simp [evalNode, fails]
            | other k2 ch2 => simp [evalNode, fails]
        | exprStmt e =>
            have hfe := ihT e (by simp at ht; omega)
              (by simpa [hasBadOutsideKw] using hbad)
            simpa [evalNode] using hfe
        | other k ch => simp [evalNode, fails]
      · intro l hl hbad
        cases l with
        | nil => simp [hasBadOutsideKwL] at hbad
        | cons a rest =>
            simp only [hasBadOutsideKwL, Bool.or_eq_true] at hbad
            rcases hbad with hb | hb
            · cases hEa : evalNode B env a with
              | error e => simp [evalArgs, hEa, fails]
              | ok v =>
                  have hfa := ihT a (by simp at hl; omega) hb
                  rw [hEa] at hfa
                  simp [fails] at hfa
            · cases hEa : evalNode B env a with
              | error e => simp [evalArgs, hEa, fails]
              | ok v =>
                  cases hEr : evalArgs B env rest with
                  | error e => simp [evalArgs, hEa, hEr, fails]
                  | ok vs =>
                      have hfr := ihL rest (by simp at hl; omega) hb
                      rw [hEr] at hfr
                      simp [fails] at hfr

/-- C1 counterexample: two source strings whose parse trees contain
constructs outside the whitelist yet evaluate successfully: the boolean
literal "True" (accepted because Python's `bool` subclasses `int`), and
"abs(5, x='a')", whose keyword argument carries a string literal that is
silently ignored. -/
theorem C1_counterexample :
    evaluate testMath true (.ok (.const (.bool true))) = .ok (.bool true)
    ∧ evaluate testMath true
        (.ok (.call (.name "abs") [.const (.num 5)]
          [(some "x", .const (.str "a"))])) = .ok (.num 5) := ⟨by decide, by decide⟩

/-- C1 amended: a tree containing a non-whitelisted construct — other than a
boolean literal, and not buried inside the (never inspected) keyword
arguments of a call — always evaluates to an error, inside `_eval` and hence
at the top level; and a source the host parser rejects (such as "import os",
a statement rather than an expression) is likewise rejected, surfacing as the
generic invalid-expression error, so the construct itself is never executed. -/
theorem C1_amended (B : PyMath α) (deg : Bool) (t : Ast α)
    (h : hasBadOutsideKw t = true) :
    fails (evalNode B (buildEnv B deg) t) = true
    ∧ fails (evaluate B deg (.ok t)) = true
    ∧ evaluate B deg (.error .parseFail) = .error (.valueError "Invalid expression") := by
  have h1 := (badOutsideKw_fails_aux B (buildEnv B deg) (sizeOf t)).1 t le_rfl h
  refine ⟨h1, ?_, rfl⟩
  cases hE : evalNode B (buildEnv B deg) t with
  | ok v => rw [hE] at h1; simp [fails] at h1
  | error e => cases e <;> simp [evaluate, hE, fails]

/-- C1 witness: the amended claim applied to the string-literal tree of
"'q'". -/
theorem C1_witness :
    fails (evalNode testMath (buildEnv testMath true) (.const (.str "q"))) = true
    ∧ fails (evaluate testMath true (.ok (.const (.str "q")))) = true
    ∧ evaluate testMath true (.error .parseFail)
        = .error (.valueError "Invalid expression") :=
  C1_amended testMath true (.const (.str "q")) (by decide)

/-- Strong induction on tree size: a successful evaluation yields a number,
except that a bare identifier (possibly wrapped in `ast.Expr`) naming a
function entry yields that function object and a boolean literal yields a
boolean. -/
theorem result_shape_aux (B : PyMath α) (deg : Bool) :
    ∀ (n : ℕ) (t : Ast α) (v : Value α),
      sizeOf t ≤ n → evalNode B (buildEnv B deg) t = .ok v →
      (∃ x, v = .num x)
      ∨ ((∃ b, v = .bool b) ∧ isBoolLit t = true)
      ∨ ((∃ g, v = .func g) ∧ isFnIdent (buildEnv B deg) t = true) := by
  intro n
  induction n with
  | zero =>
      intro t v ht _
      exact absurd ht (by cases t <;> simp_arith)
  | succ m ih =>
      intro t v ht hE
      cases t with
      | const c =>
          cases c with
          | num x =>
              simp only [evalNode, Except.ok.injEq] at hE
              exact Or.inl ⟨x, hE.symm⟩
          | bool b =>
              simp only [evalNode, Except.ok.injEq] at hE
              exact Or.inr (Or.inl ⟨⟨b, hE.symm⟩, rfl⟩)
          | str s => simp [evalNode] at hE
          | noneLit => simp [evalNode] at hE
      | binop op l r =>
          cases hbf : binFn B op with
          | none => simp [evalNode, hbf] at hE
          | some f =>
              cases hEl : evalNode B (buildEnv B deg) l with
              | error e => simp [evalNode, hbf, hEl] at hE
              | ok va =>
                  cases hEr : evalNode B (buildEnv B deg) r with
                  | error e => simp [evalNode, hbf, hEl, hEr] at hE
                  | ok vb =>
                      simp only [evalNode, hbf, hEl, hEr] at hE
                      cases hna : va.toNum with
                      | none => simp [hna] at hE
                      | some a =>
                          cases hnb : vb.toNum with
                          | none => simp [hna, hnb] at hE
                          | some b =>
                              simp only [hna, hnb] at hE
                              cases hab : f a b with
                              | error e => simp [hab] at hE
                              | ok x =>
                                  simp only [hab, Except.ok.injEq] at hE
                                  exact Or.inl ⟨x, hE.symm⟩
      | unop op e =>
          cases huf : unFn (α := α) op with
          | none => simp [evalNode, huf] at hE
          | some f =>
              cases hEe : evalNode B (buildEnv B deg) e with
              | error e2 => simp [evalNode, huf, hEe] at hE
              | ok v2 =>
                  simp only [evalNode, huf, hEe] at hE
                  cases hna : v2.toNum with
                  | none => simp [hna] at hE
                  | some a =>
                      simp only [hna, Except.ok.injEq] at hE
                      exact Or.inl ⟨f a, hE.symm⟩
      | name nm =>
          cases hlk : lookupEnv (buildEnv B deg) nm with
          | none => simp [evalNode, hlk] at hE
          | some ev =>
              cases ev with
              | const cv =>
                  simp only [evalNode, hlk, Except.ok.injEq] at hE
                  exact Or.inl ⟨cv, hE.symm⟩
              | fn g =>
                  simp only [evalNode, hlk, Except.ok.injEq] at hE
                  exact Or.inr (Or.inr ⟨⟨g, hE.symm⟩, by simp [isFnIdent, hlk]⟩)
      | call f args kws =>
          cases f with
          | name nm =>
              cases hlk : lookupEnv (buildEnv B deg) nm with
              | none => simp [evalNode, hlk] at hE
              | some ev =>
                  cases hEa : evalArgs B (buildEnv B deg) args with
                  | error e => simp [evalNode, hlk, hEa] at hE
                  | ok vs =>
                      by_cases hlen : vs.length = 0
                      · simp [evalNode, hlk, hEa, hlen] at hE
                      · cases ev with
                        | const cv => simp [evalNode, hlk, hEa, hlen] at hE
                        | fn g =>
                            cases hap : applyFn B g vs with
                            | error e => simp [evalNode, hlk, hEa, hlen, hap] at hE
                            | ok x =>
                                simp only [evalNode, hlk, hEa, hap,
                                  if_neg hlen, Except.ok.injEq] at hE
                                first
                                  | exact Or.inl ⟨x, hE.symm⟩
                                  | exact Or.inl ⟨x, hE⟩
          | const c => simp [evalNode] at hE
          | binop op2 l2 r2 => simp [evalNode] at hE
          | unop op2 e2 => simp [evalNode] at hE
          | call f2 a2 k2 => simp [evalNode] at hE
          | exprStmt e2 => simp [evalNode] at hE
          | other k2 ch2 => simp [evalNode] at hE
      | exprStmt e =>
          have hres := ih e v (by simp at ht; omega) (by simpa [evalNode] using hE)
          rcases hres with h1 | ⟨h1, h2⟩ | ⟨h1, h2⟩
          · exact Or.inl h1
          · exact Or.inr (Or.inl ⟨h1, by simpa [isBoolLit] using h2⟩)
          · exact Or.inr (Or.inr ⟨h1, by simpa [isFnIdent] using h2⟩)
      | other k ch => simp [evalNode] at hE

/-- C2 counterexample: evaluation can succeed with a non-numeric result: the
bare identifier "sin" returns the environment's function object, and the
boolean literal "True" returns a boolean. -/
theorem C2_counterexample :
    evaluate testMath true (.ok (.name "sin")) = .ok (.func (.sinF true))
    ∧ evaluate testMath false (.ok (.const (.bool true))) = .ok (.bool true) :=
  ⟨by decide, by decide⟩

/-- C2 amended: a successful evaluation returns a number — hence never a
string or a collection, which are not even representable as results — except
in exactly two cases: a bare identifier naming one of the eight environment
functions returns that function object, and a boolean literal returns a
boolean (Python's `bool` passes the `isinstance(..., (int, float))` check). -/
theorem C2_amended (B : PyMath α) (deg : Bool) (t : Ast α) (v : Value α)
    (h : evalNode B (buildEnv B deg) t = .ok v) :
    (∃ x, v = .num x)
    ∨ ((∃ b, v = .bool b) ∧ isBoolLit t = true)
    ∨ ((∃ g, v = .func g) ∧ isFnIdent (buildEnv B deg) t = true) :=
  result_shape_aux B deg (sizeOf t) t v le_rfl h

/-- C2 witness: the amended claim applied to the numeric literal 5. -/
theorem C2_witness :
    (∃ x, (Value.num (5 : ℚ)) = Value.num x)
    ∨ ((∃ b, (Value.num (5 : ℚ)) = Value.bool b)
        ∧ isBoolLit (Ast.const (PyConst.num (5 : ℚ))) = true)
    ∨ ((∃ g, (Value.num (5 : ℚ)) = Value.func g)
        ∧ isFnIdent (buildEnv testMath true) (Ast.const (PyConst.num (5 : ℚ))) = true) :=
  C2_amended testMath true (.const (.num 5)) (.num 5) (by decide)

/-- C9: the evaluator imposes no recursion or depth ceiling at all: a tower
of unary-plus nodes of any height evaluates successfully (to 1) at every
depth, both in `_eval` and at the top level, and no "expression too complex"
condition exists anywhere in the code's error repertoire. -/
theorem C9_no_depth_ceiling (B : PyMath α) (deg : Bool) (n : ℕ) :
    evaluate B deg (.ok (nestPos n)) = .ok (.num 1) := by
  have h : ∀ m : ℕ, evalNode B (buildEnv B deg) (nestPos m) = .ok (.num 1) := by
    intro m
    induction m with
    | zero => rfl
    | succ k ih => simp [nestPos, evalNode, unFn, ih]
  simp [evaluate, h n]

end PyCalc

